import Mathlib

/-!
Shallow embedding of the oauth-secret-manager-service repository.

The embedding follows the Go sources:
- `internal/rest/authenticate.go` : the `Authenticate` gin middleware and the
  `JWTParser` (`NewJWTParser`, `ParseJWT`);
- `unnamed/part_009` : `ApiSaver.SaveToken` and `ApiRetriever.RetrieveToken`;
- `unnamed/part_008` : the AWS secret-store adapter (`AWSResolver.ResolveSecretID`,
  `AWSGetter.GetSecret`, `AWSPutter.PutSecret`, `AWSCreator.CreateSecret`,
  `IsErrorResourceNotFound`);
- `internal/secret/secret_manager.go` and `unnamed/part_004` : the two alternate
  `AWSManager.ResolveSecretID` implementations;
- `unnamed/part_002` and `internal/rest/endpoints.go` : the two alternate
  `RetrieveTokenHandler` variants (context-based and body-based).

External collaborators (gin, the AWS SDK, `encoding/json`, the `jwt` library)
are modelled by explicit state passing, by an association-list secret store in
which a read returns the value last written, and by a token codec record
standing for `json.Marshal` / `json.Unmarshal` on `oauth2.Token`.
-/

namespace OAuthService

/-! ### Go string helpers (`strings.TrimPrefix`, `strings.Contains`) -/

/-- `listHasPre l p`: the character list `p` is a prefix of `l`. -/
def listHasPre : List Char → List Char → Bool
  | _, [] => true
  | [], _ :: _ => false
  | c :: l, d :: p => c = d && listHasPre l p

/-- Go `strings.TrimPrefix(s, pre)`: drop `pre` when it is a prefix of `s`,
otherwise return `s` unchanged (character-list model of the byte slicing). -/
def goTrimPrefix (s pre : String) : String :=
  if listHasPre s.data pre.data then String.mk (s.data.drop pre.data.length)
  else s

/-- `listContains l sub`: `sub` occurs contiguously somewhere in `l`. -/
def listContains : List Char → List Char → Bool
  | [], sub => listHasPre [] sub
  | c :: rest, sub => listHasPre (c :: rest) sub || listContains rest sub

/-- Go `strings.Contains(s, sub)`: `sub` occurs as a substring of `s`.
(`"Bearer "` is ASCII, so byte-level and character-level containment agree.) -/
def goContains (s sub : String) : Bool :=
  listContains s.toList sub.toList

/-- The bearer marker the middleware looks for in the Authorization header. -/
def bearerMarker : String := "Bearer "

/-! ### Decoded JSON claim values and Go JWT tokens

`jwt.MapClaims` is a `map[string]interface{}`; the values that appear after
JSON decoding are strings, numbers, booleans and null.  The Go comparison
`userID == ""` on an `interface{}` is true exactly when the dynamic type is
`string` and the value is the empty string, which structural equality on
`JSONValue` models. -/

inductive JSONValue : Type
  | str (s : String)
  | num (n : Int)
  | boolVal (b : Bool)
  | nullVal
  deriving DecidableEq, Repr

/-- `token.Claims` as the middleware sees it: either a `jwt.MapClaims`
key-value map (modelled as an association list) or some other claims type,
for which the type assertion `token.Claims.(jwt.MapClaims)` fails. -/
inductive GoClaims : Type
  | mapClaims (entries : List (String × JSONValue))
  | nonMap
  deriving DecidableEq, Repr

/-- Go map lookup `claims["sub"]` on the association-list model. -/
def lookupClaim : List (String × JSONValue) → String → Option JSONValue
  | [], _ => none
  | (k, v) :: rest, key => if k = key then some v else lookupClaim rest key

/-- The `*jwt.Token` fields the middleware reads: `Valid` and `Claims`. -/
structure GoToken : Type where
  valid : Bool
  claims : GoClaims
  deriving DecidableEq, Repr

/-! ### The `Authenticate` middleware (`internal/rest/authenticate.go`)

The middleware is generic over the `Parser` interface; a parser is a function
from the token string to `(*jwt.Token, error)`, modelled as `Except Unit
GoToken`.  `AbortWithStatusJSON` followed by `return` is modelled by an
`abort` outcome carrying the status code; reaching `c.Set`/`c.Next` is the
`proceed` outcome carrying the context value set for `"user_id"`. -/

inductive AuthOutcome : Type
  | abort (status : Nat)
  | proceed (userID : JSONValue)
  deriving DecidableEq, Repr

/-- Result of running the middleware once: the outcome, plus whether
`p.ParseJWT` was invoked on the way (the verifier-forwarding event). -/
structure AuthRun : Type where
  outcome : AuthOutcome
  parseCalled : Bool
  deriving DecidableEq, Repr

/-- Lines 40-61 of `Authenticate`: what the middleware does with the result
of `p.ParseJWT` — reject a parse error or an invalid token, reject claims
that are not a key-value map, reject a missing or empty `"sub"` claim, and
otherwise set the raw `claims["sub"]` value as the context identity. -/
def authCheckToken (parsed : Except Unit GoToken) : AuthOutcome :=
  match parsed with
  | .error _ => .abort 401
  | .ok token =>
    if token.valid = false then
      .abort 401
    else
      match token.claims with
      | .nonMap => .abort 401
      | .mapClaims claims =>
        match lookupClaim claims "sub" with
        | none => .abort 401
        | some userID =>
          if userID = JSONValue.str "" then .abort 401 else .proceed userID

/-- `Authenticate` from `internal/rest/authenticate.go`, lines 25-62,
instrumented with the `parseCalled` flag.  Status codes are as in the source:
400 for header failures, 401 for all later failures. -/
def Authenticate (parse : String → Except Unit GoToken) (authHeader : String) :
    AuthRun :=
  if authHeader = "" then
    { outcome := .abort 400, parseCalled := false }
  else
    let tokenString := goTrimPrefix authHeader bearerMarker
    if goContains authHeader bearerMarker = false ∨ tokenString = "" then
      { outcome := .abort 400, parseCalled := false }
    else
      { outcome := authCheckToken (parse tokenString), parseCalled := true }

/-- The identity the middleware leaves in the request context: set only on
the `proceed` path (`c.Set("user_id", claims["sub"])`). -/
def contextUserID (parse : String → Except Unit GoToken) (authHeader : String) :
    Option JSONValue :=
  match (Authenticate parse authHeader).outcome with
  | .proceed v => some v
  | .abort _ => none

/-! ### The `JWTParser` (`internal/rest/authenticate.go`, lines 80-113)

`jwt.Parse` first decodes the token structure, resolves the declared `alg`
header to a registered signing-method value, calls the keyfunc, verifies the
signature with the returned key, and validates the claims.  The keyfunc in
`ParseJWT` compares `token.Method` against the stored method with
`reflect.DeepEqual`, which on the registered method values amounts to
structural equality of (method family, name, hash); `SigningMethod` models
exactly that.  A token that decodes structurally is modelled as a `JWSToken`;
whether its signature verifies under a given RSA key is the
`signatureValid` oracle, and `claimsValid` stands for the library's standard
claims validation (expiry and the like). -/

inductive HashAlg : Type
  | sha256
  | sha384
  | sha512
  deriving DecidableEq, Repr

inductive SigningMethod : Type
  | rsa (name : String) (hash : HashAlg)
  | hmac (name : String) (hash : HashAlg)
  | ecdsa (name : String) (hash : HashAlg)
  | rsapss (name : String) (hash : HashAlg)
  | ed25519
  | noneAlg
  deriving DecidableEq, Repr

/-- `&jwt.SigningMethodRSA{Name: "RS256", Hash: crypto.SHA256}` as fixed in
`NewJWTParser`. -/
def rs256Method : SigningMethod := .rsa "RS256" .sha256

/-- An RSA public key as decoded by `jwt.ParseRSAPublicKeyFromPEM`
(modulus and exponent). -/
structure RSAPublicKey : Type where
  n : Nat
  e : Nat
  deriving DecidableEq, Repr

/-- A Go error as the callers of this code distinguish it: the only
inspection ever performed is `IsErrorResourceNotFound`
(`errors.As` against `*types.ResourceNotFoundException`). -/
structure GoErr : Type where
  notFound : Bool
  deriving DecidableEq, Repr

/-- `secret.IsErrorResourceNotFound` from `unnamed/part_008`. -/
def IsErrorResourceNotFound (e : GoErr) : Bool := e.notFound

/-- The distinguished AWS `ResourceNotFoundException`. -/
def resourceNotFoundErr : GoErr := { notFound := true }

/-- A structurally well-formed signed token as `jwt.Parse` sees it after
decoding: the declared method, the decoded claims, the signature oracle and
the standard claims-validation outcome. -/
structure JWSToken : Type where
  method : SigningMethod
  claims : GoClaims
  signatureValid : RSAPublicKey → Bool
  claimsValid : Bool

inductive JWTError : Type
  | unexpectedSigningMethod
  | signatureInvalid
  | invalidClaims
  deriving DecidableEq, Repr

/-- The `JWTParser` struct: the expected signing method and the public key,
both fixed at construction. -/
structure JWTParser : Type where
  signingMethod : SigningMethod
  pubKey : RSAPublicKey

/-- `NewJWTParser` (`internal/rest/authenticate.go`, lines 80-100): fetch the
public key bytes, decode them (`pem.EncodeToMemory` then
`jwt.ParseRSAPublicKeyFromPEM`, modelled by the `parsePubKeyPEM` collaborator
function), and fix the expected signing method to RS256.  Construction fails
when the key fetch or the decoding fails. -/
def NewJWTParser (parsePubKeyPEM : List Nat → Option RSAPublicKey)
    (getPublicKeyResult : Except GoErr (List Nat)) : Except GoErr JWTParser :=
  match getPublicKeyResult with
  | .error e => .error e
  | .ok pubKeyBytes =>
    match parsePubKeyPEM pubKeyBytes with
    | none => .error { notFound := false }
    | some pubKey => .ok { signingMethod := rs256Method, pubKey := pubKey }

/-- `JWTParser.ParseJWT` (`internal/rest/authenticate.go`, lines 102-113):
`jwt.Parse` with a keyfunc that rejects any declared method not
`reflect.DeepEqual` to the stored one, then verifies the signature with the
returned public key and validates the claims. -/
def JWTParser.ParseJWT (j : JWTParser) (t : JWSToken) : Except JWTError GoToken :=
  if t.method = j.signingMethod then
    if t.signatureValid j.pubKey then
      if t.claimsValid then
        .ok { valid := true, claims := t.claims }
      else
        .error .invalidClaims
    else
      .error .signatureInvalid
  else
    .error .unexpectedSigningMethod

/-! ### The secret store and the secret-identifier resolvers

The remote secret store is modelled as an association list from secret
identifier to value; a write prepends, a read returns the first (that is,
most recently written) match — the premise of the round-trip claim.
`DescribeSecret` succeeds exactly when the identifier exists, and fails with
the distinguished resource-not-found error otherwise. -/

def Store : Type := List (String × String)

def storeGet : Store → String → Option String
  | [], _ => none
  | (k, v) :: rest, id => if k = id then some v else storeGet rest id

def storePut (st : Store) (id v : String) : Store := (id, v) :: st

def storeHas (st : Store) (id : String) : Bool := (storeGet st id).isSome

/-- `DescribeSecret` against the store model: success (`none`) when the
identifier exists, `ResourceNotFoundException` otherwise. -/
def DescribeSecret (st : Store) (id : String) : Option GoErr :=
  if storeHas st id then none else some resourceNotFoundErr

/-- `api.ResolveSecretRequest` from `unnamed/part_013`. -/
structure ResolveSecretRequest : Type where
  rootDomain : String
  domain : String
  userID : String
  deriving DecidableEq, Repr

structure GetSecretRequest : Type where
  secretID : String
  deriving DecidableEq, Repr

structure PutSecretRequest : Type where
  secretID : String
  token : String
  deriving DecidableEq, Repr

structure CreateSecretRequest : Type where
  secretID : String
  token : String
  deriving DecidableEq, Repr

/-- `AWSResolver.ResolveSecretID` (`unnamed/part_008`, lines 125-134):
compose `<root-domain>/<domain>/<user-id>` and probe it with
`DescribeSecret`; the composed identifier is returned on the success path
and on the failure path alike. -/
def AWSResolver.ResolveSecretID (st : Store) (r : ResolveSecretRequest) :
    String × Option GoErr :=
  let secretID := r.rootDomain ++ "/" ++ r.domain ++ "/" ++ r.userID
  (secretID, DescribeSecret st secretID)

/-- `AWSManager.ResolveSecretID` from `internal/secret/secret_manager.go`,
lines 129-139: the identifier is `stackedtracker-oauth/<user-id>` (the
request there carries only the user id), and on a failed probe the function
returns the empty string together with the error. -/
def AWSManagerSM.ResolveSecretID (st : Store) (userID : String) :
    String × Option GoErr :=
  let secretID := "stackedtracker-oauth/" ++ userID
  match DescribeSecret st secretID with
  | some e => ("", some e)
  | none => (secretID, none)

/-- `AWSManager.ResolveSecretID` from `unnamed/part_004`, lines 135-144:
compose `<root-domain>/<domain>/<user-id>` with the root domain held by the
manager, returning the identifier on both probe outcomes. -/
def AWSManagerAws.ResolveSecretID (rootDomain : String) (st : Store)
    (domain userID : String) : String × Option GoErr :=
  let secretID := rootDomain ++ "/" ++ domain ++ "/" ++ userID
  (secretID, DescribeSecret st secretID)

/-- `AWSGetter.GetSecret` (`unnamed/part_008`): `GetSecretValue`, erroring
when the identifier does not exist. -/
def AWSGetter.GetSecret (st : Store) (r : GetSecretRequest) :
    Except GoErr String :=
  match storeGet st r.secretID with
  | some v => .ok v
  | none => .error resourceNotFoundErr

/-- `AWSPutter.PutSecret` (`unnamed/part_008`): `PutSecretValue` overwrites
an existing secret and errors when it does not exist. -/
def AWSPutter.PutSecret (st : Store) (r : PutSecretRequest) :
    Option GoErr × Store :=
  if storeHas st r.secretID then (none, storePut st r.secretID r.token)
  else (some resourceNotFoundErr, st)

/-- `AWSCreator.CreateSecret` (`unnamed/part_008`): `CreateSecret` makes a
new entry and errors when the name already exists. -/
def AWSCreator.CreateSecret (st : Store) (r : CreateSecretRequest) :
    Option GoErr × Store :=
  if storeHas st r.secretID then (some (GoErr.mk false), st)
  else (none, storePut st r.secretID r.token)

/-! ### The token layer (`unnamed/part_009`)

`oauth2.Token` keeps an access token, a refresh token and an expiry
timestamp (`time.Time`, modelled as nanoseconds since the epoch).  The pair
`json.Marshal` / `json.Unmarshal` on that struct is an external collaborator,
modelled as a `TokenCodec`; the round-trip property a JSON codec provides is
taken as a hypothesis where a theorem needs it. -/

structure OAuthToken : Type where
  accessToken : String
  refreshToken : String
  expiry : Int
  deriving DecidableEq, Repr

/-- `api.SaveTokenRequest` from `unnamed/part_013`. -/
structure SaveTokenRequest : Type where
  userID : String
  accessToken : String
  refreshToken : String
  expiry : Int
  deriving DecidableEq, Repr

/-- `api.RetrieveTokenRequest` from `unnamed/part_013`. -/
structure RetrieveTokenRequest : Type where
  userID : String
  deriving DecidableEq, Repr

/-- `env.AwsVars` from `env/env.go`. -/
structure AwsVars : Type where
  smsRootDomain : String
  kmsKeyID : String
  deriving DecidableEq, Repr

/-- `json.Marshal` / `json.Unmarshal` for `oauth2.Token`. -/
structure TokenCodec : Type where
  marshal : OAuthToken → String
  unmarshal : String → Except GoErr OAuthToken

/-- The `secret.IDResolver`, `secret.Putter` and `secret.Creator`
dependencies of `ApiSaver`, over an explicit collaborator state `σ`. -/
structure SaverDeps (σ : Type) : Type where
  resolveSecretID : ResolveSecretRequest → σ → (String × Option GoErr) × σ
  putSecret : PutSecretRequest → σ → Option GoErr × σ
  createSecret : CreateSecretRequest → σ → Option GoErr × σ

/-- The `secret.IDResolver` and `secret.Getter` dependencies of
`ApiRetriever`. -/
structure RetrieverDeps (σ : Type) : Type where
  resolveSecretID : ResolveSecretRequest → σ → (String × Option GoErr) × σ
  getSecret : GetSecretRequest → σ → Except GoErr String × σ

/-- One run of `SaveToken`, instrumented with the `CreateSecret` and
`PutSecret` calls it performed. -/
structure SaveTrace (σ : Type) : Type where
  result : Option GoErr
  createCalls : List CreateSecretRequest
  putCalls : List PutSecretRequest
  state : σ

/-- `ApiSaver.SaveToken` (`unnamed/part_009`, lines 64-87): marshal the
token, resolve the secret identifier — the resolve request sets only
`Domain` and `UserID`, so `RootDomain` is the Go zero value `""` — then
create on the distinguished not-found error, put on success, and return any
other resolution error unchanged. -/
def ApiSaver.SaveToken {σ : Type} (codec : TokenCodec) (d : SaverDeps σ)
    (r : SaveTokenRequest) (s : σ) : SaveTrace σ :=
  let tokenJSON := codec.marshal
    { accessToken := r.accessToken, refreshToken := r.refreshToken,
      expiry := r.expiry }
  let resolved := d.resolveSecretID
    { rootDomain := "", domain := "token", userID := r.userID } s
  let secretID := resolved.1.1
  match resolved.1.2 with
  | some e =>
    if IsErrorResourceNotFound e then
      let req : CreateSecretRequest := { secretID := secretID, token := tokenJSON }
      let created := d.createSecret req resolved.2
      { result := created.1, createCalls := [req], putCalls := [],
        state := created.2 }
    else
      { result := some e, createCalls := [], putCalls := [], state := resolved.2 }
  | none =>
    let req : PutSecretRequest := { secretID := secretID, token := tokenJSON }
    let put := d.putSecret req resolved.2
    { result := put.1, createCalls := [], putCalls := [req], state := put.2 }

/-- `ApiRetriever.RetrieveToken` (`unnamed/part_009`, lines 41-62): resolve
with `RootDomain` taken from the retriever's `Env.SmsRootDomain`, fetch the
secret value, and unmarshal it into a token. -/
def ApiRetriever.RetrieveToken {σ : Type} (codec : TokenCodec) (env : AwsVars)
    (d : RetrieverDeps σ) (r : RetrieveTokenRequest) (s : σ) :
    Except GoErr OAuthToken × σ :=
  let resolved := d.resolveSecretID
    { rootDomain := env.smsRootDomain, domain := "token", userID := r.userID } s
  match resolved.1.2 with
  | some e => (.error e, resolved.2)
  | none =>
    let fetched := d.getSecret { secretID := resolved.1.1 } resolved.2
    match fetched.1 with
    | .error e => (.error e, fetched.2)
    | .ok secretStr =>
      match codec.unmarshal secretStr with
      | .error e => (.error e, fetched.2)
      | .ok token => (.ok token, fetched.2)

/-- The store-backed saver dependencies, as wired in `unnamed/part_000`:
`AWSResolver`, `AWSPutter` and `AWSCreator` over one shared client. -/
def awsSaverDeps : SaverDeps Store where
  resolveSecretID := fun r st => (AWSResolver.ResolveSecretID st r, st)
  putSecret := fun r st => AWSPutter.PutSecret st r
  createSecret := fun r st => AWSCreator.CreateSecret st r

/-- The store-backed retriever dependencies, as wired in `unnamed/part_000`. -/
def awsRetrieverDeps : RetrieverDeps Store where
  resolveSecretID := fun r st => (AWSResolver.ResolveSecretID st r, st)
  getSecret := fun r st => (AWSGetter.GetSecret st r, st)

/-- `ApiSaver.SaveToken` against the store-backed adapter. -/
def saveTokenAWS (codec : TokenCodec) (r : SaveTokenRequest) (st : Store) :
    SaveTrace Store :=
  ApiSaver.SaveToken codec awsSaverDeps r st

/-- `ApiRetriever.RetrieveToken` against the store-backed adapter. -/
def retrieveTokenAWS (codec : TokenCodec) (env : AwsVars)
    (r : RetrieveTokenRequest) (st : Store) : Except GoErr OAuthToken × Store :=
  ApiRetriever.RetrieveToken codec env awsRetrieverDeps r st

/-! ### The retrieve handlers

`unnamed/part_002` (the variant routed at `GET /token/get` by
`unnamed/part_000`) takes the user id from the `"user_id"` context value the
middleware set, and performs the unchecked type assertion
`userID.(string)`, which panics on a non-string value.
`internal/rest/endpoints.go` instead binds a `{"user_id": ...}` JSON body.
Both respond 500 on a retrieval error, a nil token or an empty stored access
token, and 200 with the three stored fields otherwise. -/

inductive HandlerResult : Type
  | respOK (accessToken refreshToken : String) (expiry : Int)
  | respErr (status : Nat)
  | panicked
  deriving DecidableEq, Repr

/-- The HTTP status of a handler result (`none` for a panic, which never
writes a response itself). -/
def HandlerResult.status : HandlerResult → Option Nat
  | .respOK _ _ _ => some 200
  | .respErr s => some s
  | .panicked => none

/-- One run of a retrieve handler, instrumented with the user id the
`token.Retriever` dependency was invoked with, if it was. -/
structure RetrieveRun (σ : Type) : Type where
  result : HandlerResult
  calledWith : Option String
  state : σ

/-- `RetrieveTokenHandler` from `unnamed/part_002`, lines 21-39: read
`"user_id"` from the request context (401 when absent or equal to the empty
string), assert it to `string` (panicking on any other dynamic type), invoke
the retriever, and answer 500 on error or empty access token, else 200 with
the stored fields. -/
def RetrieveTokenHandler {σ : Type}
    (retrieve : String → σ → Except GoErr OAuthToken × σ)
    (ctxUserID : Option JSONValue) (s : σ) : RetrieveRun σ :=
  match ctxUserID with
  | none => { result := .respErr 401, calledWith := none, state := s }
  | some v =>
    if v = JSONValue.str "" then
      { result := .respErr 401, calledWith := none, state := s }
    else
      match v with
      | .str userID =>
        let fetched := retrieve userID s
        match fetched.1 with
        | .error _ =>
          { result := .respErr 500, calledWith := some userID, state := fetched.2 }
        | .ok tk =>
          if tk.accessToken = "" then
            { result := .respErr 500, calledWith := some userID, state := fetched.2 }
          else
            { result := .respOK tk.accessToken tk.refreshToken tk.expiry,
              calledWith := some userID, state := fetched.2 }
      | _ => { result := .panicked, calledWith := none, state := s }

/-- `RetrieveTokenHandler` from `internal/rest/endpoints.go`, lines 17-38:
bind the JSON body into a `RetrieveRequest` (400 when binding fails), then
retrieve for the body's user id; the gin context value set by the middleware
is never read (the `ctxUserID` argument is unused). -/
def RetrieveTokenHandlerBody {σ : Type}
    (retrieve : String → σ → Except GoErr OAuthToken × σ)
    (ctxUserID : Option JSONValue) (body : Option RetrieveTokenRequest)
    (s : σ) : RetrieveRun σ :=
  match body with
  | none => { result := .respErr 400, calledWith := none, state := s }
  | some req =>
    let fetched := retrieve req.userID s
    match fetched.1 with
    | .error _ =>
      { result := .respErr 500, calledWith := some req.userID, state := fetched.2 }
    | .ok tk =>
      if tk.accessToken = "" then
        { result := .respErr 500, calledWith := some req.userID, state := fetched.2 }
      else
        { result := .respOK tk.accessToken tk.refreshToken tk.expiry,
          calledWith := some req.userID, state := fetched.2 }

/-! ### The middleware/handler chain

`unnamed/part_000` registers `rest.Authenticate` before the route handlers;
gin runs the handler only when the middleware called `c.Next()` rather than
aborting. -/

structure ChainRun : Type where
  aborted : Bool
  handlerResult : Option HandlerResult
  deriving DecidableEq, Repr

/-- The `GET /token/get` chain: the middleware runs first; the handler runs,
with the middleware's `"user_id"` context value, only when the middleware
proceeded. -/
def runTokenGet {σ : Type} (parse : String → Except Unit GoToken)
    (retrieve : String → σ → Except GoErr OAuthToken × σ)
    (authHeader : String) (s : σ) : ChainRun :=
  match (Authenticate parse authHeader).outcome with
  | .abort _ => { aborted := true, handlerResult := none }
  | .proceed v =>
    { aborted := false,
      handlerResult := some (RetrieveTokenHandler retrieve (some v) s).result }

/-- The failure conditions enumerated by the middleware, in terms of the
values the source checks: empty Authorization header, malformed header
(no `"Bearer "` occurrence, or nothing left after trimming), a parse error,
a token reported invalid, claims that are not a key-value map, or a missing
or empty `"sub"` claim. -/
def authStepFailure (parse : String → Except Unit GoToken) (h : String) : Prop :=
  h = "" ∨
  goContains h bearerMarker = false ∨
  goTrimPrefix h bearerMarker = "" ∨
  parse (goTrimPrefix h bearerMarker) = .error () ∨
  (∃ tok, parse (goTrimPrefix h bearerMarker) = .ok tok ∧
    (tok.valid = false ∨
     tok.claims = .nonMap ∨
     (∃ m, tok.claims = .mapClaims m ∧
       (lookupClaim m "sub" = none ∨ lookupClaim m "sub" = some (.str "")))))

/-- A concrete `token.Retriever` stub used in closed instantiations. -/
def stubRetriever : String → Unit → Except GoErr OAuthToken × Unit :=
  fun _ u => (.ok (OAuthToken.mk "a" "rf" 0), u)

/-- A concrete `TokenCodec` used in closed instantiations; its round-trip
equation holds at tokens with refresh token `"rf"` and expiry `0`. -/
def cexCodec : TokenCodec where
  marshal := fun t => t.accessToken
  unmarshal := fun s => .ok (OAuthToken.mk s "rf" 0)

/-! ## Claims -/

/-- **C1.** For every bearer token whose declared signing algorithm differs
from the expected RS256 method fixed at construction, `ParseJWT` of a parser
built by `NewJWTParser` returns an error (the keyfunc's unexpected-signing-
method error), even if the token is otherwise validly signed. -/
theorem ParseJWT_rejects_algorithm_mismatch
    (parsePubKeyPEM : List Nat → Option RSAPublicKey)
    (getPublicKeyResult : Except GoErr (List Nat)) (j : JWTParser)
    (hj : NewJWTParser parsePubKeyPEM getPublicKeyResult = .ok j)
    (t : JWSToken) (hm : t.method ≠ rs256Method) :
    j.ParseJWT t = .error .unexpectedSigningMethod := by
  have hsm : j.signingMethod = rs256Method := by
    unfold NewJWTParser at hj
    cases getPublicKeyResult with
    | error e => simp at hj
    | ok bs =>
      cases hp : parsePubKeyPEM bs with
      | none => simp [hp] at hj
      | some k => simp [hp] at hj; rw [← hj]
  unfold JWTParser.ParseJWT
  rw [hsm, if_neg hm]

/-- Witness for C1: a concretely constructed parser rejects an HS256 token
whose signature oracle reports valid. -/
theorem ParseJWT_rejects_algorithm_mismatch_witness :
    NewJWTParser (fun _ => some (RSAPublicKey.mk 1 1)) (.ok []) =
      .ok (JWTParser.mk rs256Method (RSAPublicKey.mk 1 1)) ∧
    JWTParser.ParseJWT (JWTParser.mk rs256Method (RSAPublicKey.mk 1 1))
      { method := .hmac "HS256" .sha256, claims := .nonMap,
        signatureValid := fun _ => true, claimsValid := true } =
      .error .unexpectedSigningMethod := by
  refine ⟨rfl, ?_⟩
  exact ParseJWT_rejects_algorithm_mismatch (fun _ => some (RSAPublicKey.mk 1 1))
    (.ok []) _ rfl _ (by decide)

/-- **C2.** `ApiSaver.SaveToken` performs at most one secret-store write,
chosen by the resolve-or-create policy: on the distinguished
resource-not-found resolution error, exactly one `CreateSecret` call and no
`PutSecret` call; on successful resolution, exactly one `PutSecret` call and
no `CreateSecret` call; on any other resolution error, neither call, and the
error is returned. -/
theorem SaveToken_resolve_or_create {σ : Type} (codec : TokenCodec)
    (d : SaverDeps σ) (r : SaveTokenRequest) (s : σ) :
    (ApiSaver.SaveToken codec d r s).createCalls.length +
      (ApiSaver.SaveToken codec d r s).putCalls.length ≤ 1 ∧
    (match (d.resolveSecretID
        { rootDomain := "", domain := "token", userID := r.userID } s).1.2 with
     | some e =>
       if IsErrorResourceNotFound e then
         (ApiSaver.SaveToken codec d r s).createCalls.length = 1 ∧
         (ApiSaver.SaveToken codec d r s).putCalls = []
       else
         (ApiSaver.SaveToken codec d r s).createCalls = [] ∧
         (ApiSaver.SaveToken codec d r s).putCalls = [] ∧
         (ApiSaver.SaveToken codec d r s).result = some e
     | none =>
       (ApiSaver.SaveToken codec d r s).putCalls.length = 1 ∧
       (ApiSaver.SaveToken codec d r s).createCalls = []) := by
  unfold ApiSaver.SaveToken
  cases h : (d.resolveSecretID
      { rootDomain := "", domain := "token", userID := r.userID } s).1.2 with
  | none => simp [h]
  | some e =>
    by_cases hnf : IsErrorResourceNotFound e <;> simp [h, hnf]

/-- **C7 (amended).** The `unnamed/part_008` `AWSResolver.ResolveSecretID`
and the `unnamed/part_004` `AWSManager.ResolveSecretID` compose the
identifier `<root-domain>/<domain>/<user-id>` and return that identical
identifier on both the success and the failure path of the existence probe
(the result does not depend on the store).  The
`internal/secret/secret_manager.go` variant does not satisfy this: see the
counterexample. -/
theorem ResolveSecretID_composition (st st2 : Store) (r : ResolveSecretRequest)
    (rootDomain domain userID : String) :
    (AWSResolver.ResolveSecretID st r).1 =
      r.rootDomain ++ "/" ++ r.domain ++ "/" ++ r.userID ∧
    (AWSResolver.ResolveSecretID st r).1 = (AWSResolver.ResolveSecretID st2 r).1 ∧
    (AWSManagerAws.ResolveSecretID rootDomain st domain userID).1 =
      rootDomain ++ "/" ++ domain ++ "/" ++ userID ∧
    (AWSManagerAws.ResolveSecretID rootDomain st domain userID).1 =
      (AWSManagerAws.ResolveSecretID rootDomain st2 domain userID).1 :=
  ⟨rfl, rfl, rfl, rfl⟩

/-- Counterexample for C7 as stated: the `internal/secret/secret_manager.go`
`AWSManager.ResolveSecretID` returns `""` on the failure path of the probe
and `"stackedtracker-oauth/<user-id>"` (not `<root>/<domain>/<user-id>`) on
the success path, so identical inputs do not produce the identical
identifier across the two probe outcomes. -/
theorem ResolveSecretID_sm_counterexample :
    (AWSManagerSM.ResolveSecretID [] "u").1 = "" ∧
    (AWSManagerSM.ResolveSecretID [("stackedtracker-oauth/u", "v")] "u").1 =
      "stackedtracker-oauth/u" ∧
    (AWSManagerSM.ResolveSecretID [] "u").1 ≠
      (AWSManagerSM.ResolveSecretID [("stackedtracker-oauth/u", "v")] "u").1 :=
  ⟨rfl, rfl, by decide⟩

/-- **C4.** On any request where an authentication step fails —
missing or malformed header, parse or signature failure, invalid token,
non-map claims, missing or empty subject — the middleware aborts, and the
downstream handler of the chain never executes. -/
theorem Authenticate_failure_aborts {σ : Type}
    (parse : String → Except Unit GoToken)
    (retrieve : String → σ → Except GoErr OAuthToken × σ)
    (h : String) (s : σ) (hf : authStepFailure parse h) :
    (∃ code, (Authenticate parse h).outcome = .abort code) ∧
    (runTokenGet parse retrieve h s).aborted = true ∧
    (runTokenGet parse retrieve h s).handlerResult = none := by
  have habort : ∃ code, (Authenticate parse h).outcome = .abort code := by
    by_cases h0 : h = ""
    · exact ⟨400, by simp [Authenticate, h0]⟩
    · by_cases hg : goContains h bearerMarker = false ∨
        goTrimPrefix h bearerMarker = ""
      · exact ⟨400, by simp [Authenticate, h0, hg]⟩
      · refine ⟨401, ?_⟩
        have hout : (Authenticate parse h).outcome =
            authCheckToken (parse (goTrimPrefix h bearerMarker)) := by
          simp [Authenticate, h0, hg]
        rw [hout]
        rcases hf with hf | hf | hf | hf | ⟨tok, hp, hf⟩
        · exact absurd hf h0
        · exact absurd (Or.inl hf) hg
        · exact absurd (Or.inr hf) hg
        · simp [authCheckToken, hf]
        · rcases hf with hv | hcl | ⟨m, hm, hs⟩
          · simp [authCheckToken, hp, hv]
          · simp [authCheckToken, hp, hcl]
          · cases hs with
            | inl hs => simp [authCheckToken, hp, hm, hs]
            | inr hs => simp [authCheckToken, hp, hm, hs]
  obtain ⟨code, hcode⟩ := habort
  exact ⟨⟨code, hcode⟩, by simp [runTokenGet, hcode], by simp [runTokenGet, hcode]⟩

/-- Witness for C4: a request with no Authorization header is aborted and
the handler does not run. -/
theorem Authenticate_failure_aborts_witness :
    authStepFailure (fun _ => .error ()) "" ∧
    ((∃ code, (Authenticate (fun _ => .error ()) "").outcome = .abort code) ∧
     (runTokenGet (fun _ => .error ())
        (fun _ (st : Store) => (.error resourceNotFoundErr, st)) "" []).aborted = true ∧
     (runTokenGet (fun _ => .error ())
        (fun _ (st : Store) => (.error resourceNotFoundErr, st)) "" []).handlerResult = none) :=
  ⟨Or.inl rfl,
   Authenticate_failure_aborts (fun _ => .error ())
     (fun _ (st : Store) => (.error resourceNotFoundErr, st)) "" [] (Or.inl rfl)⟩

/-- **C5 (amended).** The middleware forwards a request's token string to the
verifier exactly when the Authorization header *contains* `"Bearer "` as a
substring and trimming a leading `"Bearer "` leaves a non-empty string; the
source checks `strings.Contains`, not an exact-prefix shape, so headers in
which `"Bearer "` occurs only in a non-leading position are also forwarded
(see the counterexample). -/
theorem Authenticate_forwards_iff (parse : String → Except Unit GoToken)
    (h : String) :
    (Authenticate parse h).parseCalled = true ↔
      (goContains h bearerMarker = true ∧ goTrimPrefix h bearerMarker ≠ "") := by
  by_cases h0 : h = ""
  · subst h0
    have hc : goContains "" bearerMarker = false := by decide
    simp [Authenticate, hc]
  · by_cases hg : goContains h bearerMarker = false ∨
      goTrimPrefix h bearerMarker = ""
    · simp only [Authenticate, if_neg h0, if_pos hg]
      constructor
      · intro hfalse; exact absurd hfalse (by simp)
      · rintro ⟨hc, ht⟩
        rcases hg with hg | hg
        · rw [hc] at hg; exact absurd hg (by simp)
        · exact absurd hg ht
    · simp only [Authenticate, if_neg h0, if_neg hg]
      push_neg at hg
      obtain ⟨hc, ht⟩ := hg
      refine ⟨fun _ => ⟨?_, ht⟩, fun _ => by simp⟩
      cases hcb : goContains h bearerMarker
      · exact absurd hcb hc
      · rfl

/-- Counterexample for C5 as stated: the header `"xBearer y"` does not
consist of the exact prefix `"Bearer "` followed by a token, yet the
middleware invokes the verifier on it. -/
theorem Authenticate_forwards_counterexample :
    (Authenticate (fun _ => .error ()) "xBearer y").parseCalled = true ∧
    ¬ ∃ t : String, t ≠ "" ∧ "xBearer y" = bearerMarker ++ t := by
  constructor
  · decide
  · rintro ⟨t, _, he⟩
    have hd : ("xBearer y").data = ("Bearer ").data ++ t.data :=
      congrArg String.data he
    simp at hd

/-- **C6.** For every token that parses and is reported valid, if the
decoded claims are not a key-value map, or the `"sub"` claim is absent, or
it equals the empty string, the middleware rejects the request with status
401 and no identity is placed in the request context. -/
theorem Authenticate_rejects_bad_claims (parse : String → Except Unit GoToken)
    (h : String) (tok : GoToken)
    (hc : goContains h bearerMarker = true)
    (ht : goTrimPrefix h bearerMarker ≠ "")
    (hp : parse (goTrimPrefix h bearerMarker) = .ok tok)
    (hv : tok.valid = true)
    (hbad : tok.claims = .nonMap ∨
      (∃ m, tok.claims = .mapClaims m ∧
        (lookupClaim m "sub" = none ∨ lookupClaim m "sub" = some (.str "")))) :
    (Authenticate parse h).outcome = .abort 401 ∧
    contextUserID parse h = none := by
  have h0 : h ≠ "" := by
    intro h0; rw [h0] at hc
    exact absurd hc (by decide)
  have hg : ¬ (goContains h bearerMarker = false ∨
      goTrimPrefix h bearerMarker = "") := by
    rintro (hg | hg)
    · rw [hc] at hg; exact absurd hg (by simp)
    · exact absurd hg ht
  have hout : (Authenticate parse h).outcome =
      authCheckToken (parse (goTrimPrefix h bearerMarker)) := by
    simp [Authenticate, h0, hg]
  have habort : (Authenticate parse h).outcome = .abort 401 := by
    rw [hout]
    rcases hbad with hcl | ⟨m, hm, hs⟩
    · simp [authCheckToken, hp, hv, hcl]
    · cases hs with
      | inl hs => simp [authCheckToken, hp, hv, hm, hs]
      | inr hs => simp [authCheckToken, hp, hv, hm, hs]
  exact ⟨habort, by simp [contextUserID, habort]⟩

/-- Witness for C6: a valid token whose claims are not a key-value map is
rejected with 401 and leaves no context identity. -/
theorem Authenticate_rejects_bad_claims_witness :
    (Authenticate (fun _ => .ok (GoToken.mk true .nonMap)) "Bearer t").outcome =
      .abort 401 ∧
    contextUserID (fun _ => .ok (GoToken.mk true .nonMap)) "Bearer t" = none :=
  Authenticate_rejects_bad_claims (fun _ => .ok (GoToken.mk true .nonMap))
    "Bearer t" (GoToken.mk true .nonMap) (by decide) (by decide) rfl rfl
    (Or.inl rfl)

/-- **C3 (amended).** Saving and then retrieving for the same user id,
against the store in which a read returns the value last written, yields the
saved access token, refresh token and expiry — *provided the retriever's
configured root domain is the empty string*.  `ApiSaver.SaveToken` always
resolves with an empty `RootDomain`, while `ApiRetriever.RetrieveToken`
resolves with `Env.SmsRootDomain`; the identifiers (and hence the round
trip) agree exactly in the empty-root-domain case, which is how
`unnamed/part_000` wires the retriever (its `Env` field is left at the zero
value).  For a retriever with a non-empty root domain the round trip fails:
see the counterexample. -/
theorem SaveToken_RetrieveToken_roundTrip (codec : TokenCodec) (env : AwsVars)
    (r : SaveTokenRequest) (st : Store)
    (henv : env.smsRootDomain = "")
    (hcodec : codec.unmarshal (codec.marshal
        (OAuthToken.mk r.accessToken r.refreshToken r.expiry)) =
      .ok (OAuthToken.mk r.accessToken r.refreshToken r.expiry)) :
    (saveTokenAWS codec r st).result = none ∧
    (retrieveTokenAWS codec env (RetrieveTokenRequest.mk r.userID)
        (saveTokenAWS codec r st).state).1 =
      .ok (OAuthToken.mk r.accessToken r.refreshToken r.expiry) := by
  obtain ⟨rd, kid⟩ := env
  simp only at henv
  subst henv
  have hsave : (saveTokenAWS codec r st).result = none ∧
      (saveTokenAWS codec r st).state =
        storePut st ("/token/" ++ r.userID)
          (codec.marshal (OAuthToken.mk r.accessToken r.refreshToken r.expiry)) := by
    by_cases hex : storeHas st ("/token/" ++ r.userID)
    · constructor <;>
        simp [saveTokenAWS, ApiSaver.SaveToken, awsSaverDeps,
          AWSResolver.ResolveSecretID, DescribeSecret, AWSPutter.PutSecret, hex]
    · constructor <;>
        simp [saveTokenAWS, ApiSaver.SaveToken, awsSaverDeps,
          AWSResolver.ResolveSecretID, DescribeSecret, AWSCreator.CreateSecret,
          IsErrorResourceNotFound, resourceNotFoundErr, hex]
  refine ⟨hsave.1, ?_⟩
  rw [hsave.2]
  simp [retrieveTokenAWS, ApiRetriever.RetrieveToken, awsRetrieverDeps,
    AWSResolver.ResolveSecretID, DescribeSecret, AWSGetter.GetSecret,
    storeHas, storePut, storeGet, hcodec]

/-- Witness for C3 (amended): a concrete save-then-retrieve against the
empty store with an empty root domain returns the saved fields. -/
theorem SaveToken_RetrieveToken_roundTrip_witness :
    (saveTokenAWS cexCodec (SaveTokenRequest.mk "u" "a" "rf" 0) []).result = none ∧
    (retrieveTokenAWS cexCodec (AwsVars.mk "" "k") (RetrieveTokenRequest.mk "u")
        (saveTokenAWS cexCodec (SaveTokenRequest.mk "u" "a" "rf" 0) []).state).1 =
      .ok (OAuthToken.mk "a" "rf" 0) :=
  SaveToken_RetrieveToken_roundTrip cexCodec (AwsVars.mk "" "k")
    (SaveTokenRequest.mk "u" "a" "rf" 0) [] rfl rfl

/-- Counterexample for C3 as stated: with a retriever whose configured root
domain is `"r"`, saving `{user "u", access "a", refresh "rf", expiry 0}` and
then retrieving for `"u"` does not return the saved token — the saver wrote
under `"/token/u"` while the retriever resolves `"r/token/u"`, which does
not exist, so retrieval errors.  (The codec round-trips at this very token,
so the failure is the identifier mismatch, not serialization.) -/
theorem SaveToken_RetrieveToken_roundTrip_counterexample :
    cexCodec.unmarshal (cexCodec.marshal (OAuthToken.mk "a" "rf" 0)) =
      .ok (OAuthToken.mk "a" "rf" 0) ∧
    (retrieveTokenAWS cexCodec (AwsVars.mk "r" "k") (RetrieveTokenRequest.mk "u")
        (saveTokenAWS cexCodec (SaveTokenRequest.mk "u" "a" "rf" 0) []).state).1 ≠
      .ok (OAuthToken.mk "a" "rf" 0) := by
  refine ⟨rfl, fun hcontra => ?_⟩
  rw [show (retrieveTokenAWS cexCodec (AwsVars.mk "r" "k")
      (RetrieveTokenRequest.mk "u")
      (saveTokenAWS cexCodec (SaveTokenRequest.mk "u" "a" "rf" 0) []).state).1 =
      Except.error resourceNotFoundErr from rfl] at hcontra
  exact Except.noConfusion hcontra

/-- **C8 (amended).** The `unnamed/part_002` `RetrieveTokenHandler` (the one
`unnamed/part_000` routes at `GET /token/get`) takes its user identifier
from the authenticated context: with no context identity it answers 401
without invoking the retriever, and with a non-empty string identity it
invokes the retriever with exactly that identity.  The
`internal/rest/endpoints.go` variant instead reads the user id from the
request body: see the counterexample. -/
theorem RetrieveTokenHandler_identity_from_context {σ : Type}
    (retrieve : String → σ → Except GoErr OAuthToken × σ) (s : σ)
    (u : String) (hu : u ≠ "") :
    (RetrieveTokenHandler retrieve none s).result = .respErr 401 ∧
    (RetrieveTokenHandler retrieve none s).calledWith = none ∧
    (RetrieveTokenHandler retrieve (some (.str u)) s).calledWith = some u := by
  refine ⟨rfl, rfl, ?_⟩
  have hne : (JSONValue.str u = JSONValue.str "") = False := by
    simp [hu]
  simp only [RetrieveTokenHandler, hne, if_false]
  cases hres : (retrieve u s).1 with
  | error e => rfl
  | ok tk => by_cases hacc : tk.accessToken = "" <;> simp [hacc]

/-- Witness for C8 (amended): concrete runs of the context-based handler. -/
theorem RetrieveTokenHandler_identity_from_context_witness :
    (RetrieveTokenHandler stubRetriever none ()).result = .respErr 401 ∧
    (RetrieveTokenHandler stubRetriever none ()).calledWith = none ∧
    (RetrieveTokenHandler stubRetriever (some (.str "u1")) ()).calledWith =
      some "u1" :=
  RetrieveTokenHandler_identity_from_context stubRetriever () "u1" (by decide)

/-- Counterexample for C8 as stated: the `internal/rest/endpoints.go`
handler, given a request body `{"user_id": "bodyUser"}`, invokes the
retriever with the body's user id and answers 200 — with no identity in the
context at all (first two conjuncts) — and it ignores a context identity
when one is present (third conjunct). -/
theorem RetrieveTokenHandlerBody_counterexample :
    (RetrieveTokenHandlerBody stubRetriever none
        (some (RetrieveTokenRequest.mk "bodyUser")) ()).calledWith =
      some "bodyUser" ∧
    ((RetrieveTokenHandlerBody stubRetriever none
        (some (RetrieveTokenRequest.mk "bodyUser")) ()).result).status =
      some 200 ∧
    (RetrieveTokenHandlerBody stubRetriever (some (.str "ctxUser"))
        (some (RetrieveTokenRequest.mk "bodyUser")) ()).calledWith ≠
      some "ctxUser" := by
  refine ⟨rfl, rfl, by decide⟩

/-- **C9.** For every stored token whose expiry is in the past (and whose
stored access token is non-empty), the retrieve path — the context-based
handler over `ApiRetriever.RetrieveToken` against the store — still answers
200 with the stored access token, refresh token and expiry: no expiry check
is performed anywhere on the path. -/
theorem RetrieveTokenHandler_returns_expired (codec : TokenCodec)
    (env : AwsVars) (u : String) (t : OAuthToken) (st : Store) (now : Int)
    (hu : u ≠ "")
    (hstore : storeGet st (env.smsRootDomain ++ "/" ++ "token" ++ "/" ++ u) =
      some (codec.marshal t))
    (hcodec : codec.unmarshal (codec.marshal t) = .ok t)
    (hacc : t.accessToken ≠ "")
    (hexp : t.expiry < now) :
    (RetrieveTokenHandler
        (fun uid st2 => retrieveTokenAWS codec env (RetrieveTokenRequest.mk uid) st2)
        (some (.str u)) st).result = .respOK t.accessToken t.refreshToken t.expiry ∧
    ((RetrieveTokenHandler
        (fun uid st2 => retrieveTokenAWS codec env (RetrieveTokenRequest.mk uid) st2)
        (some (.str u)) st).result).status = some 200 := by
  have hne : (JSONValue.str u = JSONValue.str "") = False := by
    simp [hu]
  have hres : (RetrieveTokenHandler
      (fun uid st2 => retrieveTokenAWS codec env (RetrieveTokenRequest.mk uid) st2)
      (some (.str u)) st).result = .respOK t.accessToken t.refreshToken t.expiry := by
    simp only [RetrieveTokenHandler, hne, if_false]
    simp [retrieveTokenAWS, ApiRetriever.RetrieveToken, awsRetrieverDeps,
      AWSResolver.ResolveSecretID, DescribeSecret, AWSGetter.GetSecret,
      storeHas, hstore, hcodec, hacc]
  exact ⟨hres, by rw [hres]; rfl⟩

/-- Witness for C9: a token with expiry `0`, retrieved at `now = 1`, is
returned with status 200 and its stored fields. -/
theorem RetrieveTokenHandler_returns_expired_witness :
    (RetrieveTokenHandler
        (fun uid st2 => retrieveTokenAWS cexCodec (AwsVars.mk "" "k")
          (RetrieveTokenRequest.mk uid) st2)
        (some (.str "u1")) [("/token/u1", "a")]).result =
      .respOK "a" "rf" 0 ∧
    ((RetrieveTokenHandler
        (fun uid st2 => retrieveTokenAWS cexCodec (AwsVars.mk "" "k")
          (RetrieveTokenRequest.mk uid) st2)
        (some (.str "u1")) [("/token/u1", "a")]).result).status = some 200 :=
  RetrieveTokenHandler_returns_expired cexCodec (AwsVars.mk "" "k") "u1"
    (OAuthToken.mk "a" "rf" 0) [("/token/u1", "a")] 1 (by decide) (by decide)
    rfl (by decide) (by decide)

/-- **C10.** If a verified token's claims hold a non-string `"sub"` value
(here a number), the middleware's absent-or-empty check passes and the raw
value becomes the context identity; the context-based retrieve handler's
unchecked `userID.(string)` assertion then panics instead of producing an
error response. -/
theorem Authenticate_nonstring_sub_panics {σ : Type}
    (parse : String → Except Unit GoToken)
    (retrieve : String → σ → Except GoErr OAuthToken × σ)
    (h : String) (tok : GoToken) (m : List (String × JSONValue)) (k : Int)
    (s : σ)
    (hc : goContains h bearerMarker = true)
    (ht : goTrimPrefix h bearerMarker ≠ "")
    (hp : parse (goTrimPrefix h bearerMarker) = .ok tok)
    (hv : tok.valid = true)
    (hm : tok.claims = .mapClaims m)
    (hsub : lookupClaim m "sub" = some (.num k)) :
    (Authenticate parse h).outcome = .proceed (.num k) ∧
    (runTokenGet parse retrieve h s).handlerResult = some .panicked := by
  have h0 : h ≠ "" := by
    intro h0; rw [h0] at hc
    exact absurd hc (by decide)
  have hg : ¬ (goContains h bearerMarker = false ∨
      goTrimPrefix h bearerMarker = "") := by
    rintro (hg | hg)
    · rw [hc] at hg; exact absurd hg (by simp)
    · exact absurd hg ht
  have hout : (Authenticate parse h).outcome = .proceed (.num k) := by
    simp [Authenticate, h0, hg, authCheckToken, hp, hv, hm, hsub]
  refine ⟨hout, ?_⟩
  simp [runTokenGet, hout, RetrieveTokenHandler]

/-- Witness for C10: a valid token with `"sub": 7` proceeds through the
gate and the retrieve handler panics. -/
theorem Authenticate_nonstring_sub_panics_witness :
    (Authenticate (fun _ => .ok (GoToken.mk true (.mapClaims [("sub", .num 7)])))
        "Bearer t").outcome = .proceed (.num 7) ∧
    (runTokenGet (fun _ => .ok (GoToken.mk true (.mapClaims [("sub", .num 7)])))
        stubRetriever "Bearer t" ()).handlerResult = some .panicked :=
  Authenticate_nonstring_sub_panics
    (fun _ => .ok (GoToken.mk true (.mapClaims [("sub", .num 7)])))
    stubRetriever "Bearer t" (GoToken.mk true (.mapClaims [("sub", .num 7)]))
    [("sub", .num 7)] 7 () (by decide) (by decide) rfl rfl rfl (by decide)

